import Mathlib

/-!
Verification development for the order-notification worker.

The repository contains four revisions of the same worker module:

* `src/src/worker.ts`            — embedded below in namespace `WTS`
* `src/unnamed/part_000` (first document, lines 1-305)   — namespace `P0A`
* `src/unnamed/part_000` (second document, lines 306-620) — namespace `P0B`
* `src/unnamed/part_001`         — namespace `P1`

Pure business logic (pricing, rendering, failure classification) is
translated directly.  The job processor is modelled as a function from the
results of its two network calls (readiness check, send) to an explicit
outcome; the random delay source `Math.random()` is a rational parameter
`r` with `0 ≤ r < 1`.  JavaScript numbers holding monetary values are
modelled as `Int` (the spec fixes them to integer minor currency units);
possibly-absent fields are `Option`; JS truthiness of strings/numbers is
modelled explicitly (`""`, `0`, absent are falsy; an array is always
truthy, including `[]`).
-/

/-- Pizza flavor entry: display name and price in minor currency units. -/
structure Flavor where
  name : String
  price : Int
deriving DecidableEq

/-- Complement (add-on) entry of an order line; the price may be absent. -/
structure ComplementEntry where
  quantity : Int
  name : String
  price : Option Int
deriving DecidableEq

/-- Optional pizza configuration object carrying a pricing strategy. -/
structure PizzaConfig where
  pricingType : Option String
deriving DecidableEq

/-- Order line.  The source reads the line as an untyped object, so every
field the code probes (`item.price ?? 0`, `item.complements || ...`) is an
`Option` here. -/
structure OrderItem where
  quantity : Int
  name : String
  price : Option Int
  notes : Option String
  orderItemComplements : Option (List ComplementEntry)
  complements : Option (List ComplementEntry)
  pizzaFlavors : Option (List Flavor)
  orderItemPizzaFlavors : Option (List Flavor)
  pizzaPricingType : Option String
  pizzaConfig : Option PizzaConfig
deriving DecidableEq

/-- Order snapshot as carried by the job payload. -/
structure OrderData where
  code : Int
  customerName : String
  customerPhone : String
  notes : Option String
  paymentMethod : String
  change : Option Int
  status : String
  updatedAt : String
  deliveryMethodCode : Option String
  items : List OrderItem
deriving DecidableEq

/-- Event type of a job (`type` field of `OrderMessageJobData`). -/
inductive MsgType where
  | ORDER_CREATED
  | ORDER_STATUS_UPDATED
deriving DecidableEq

/-- JS `a || b` where `a` is a possibly-absent string and `b` a string:
an absent or empty string falls through to `b`. -/
def jsStrOr (a : Option String) (b : String) : String :=
  match a with
  | some s => if s = "" then b else s
  | none => b

/-- Effective flavor list `item.pizzaFlavors || item.orderItemPizzaFlavors`.
An array is truthy in JS even when empty, so a present `pizzaFlavors`
short-circuits; a wholly absent pair yields `[]` (which fails the
`length > 0` guard exactly as `undefined` fails `?.length`). -/
def effFlavors (i : OrderItem) : List Flavor :=
  ((i.pizzaFlavors).orElse fun _ => i.orderItemPizzaFlavors).getD []

/-- Effective complement list `item.complements || item.orderItemComplements`
(with `[]` when both are absent). -/
def effComplements (i : OrderItem) : List ComplementEntry :=
  ((i.complements).orElse fun _ => i.orderItemComplements).getD []

/-- `item.pizzaPricingType || item.pizzaConfig?.pricingType || "average"`. -/
def effPricingType (i : OrderItem) : String :=
  jsStrOr i.pizzaPricingType (jsStrOr (i.pizzaConfig.bind fun c => c.pricingType) "average")

/-- JS `Math.round(s / n)` for integer `s` and nonzero `n`: round half
toward positive infinity, i.e. `⌊s/n + 1/2⌋ = ⌊(2s+n)/(2n)⌋`. -/
def roundHalfUp (s n : Int) : Int := Int.fdiv (2 * s + n) (2 * n)

/-- JS `Math.max(...l)` on a non-empty list; 0 on `[]` (that case sits
behind the non-empty flavor guard in every caller). -/
def listMaxD : List Int → Int
  | [] => 0
  | p :: ps => ps.foldl max p

/-- Hazard-tracking variant of `Math.max(...l)`: `Math.max()` of an empty
spread is `-Infinity`, modelled as `none`. -/
def listMaxOpt : List Int → Option Int
  | [] => none
  | p :: ps => some (ps.foldl max p)

/-- Hazard-tracking variant of `Math.round(s / n)`: division by zero is a
non-integer (`NaN`), modelled as `none`. -/
def roundDivOpt (s n : Int) : Option Int :=
  if n = 0 then none else some (roundHalfUp s n)

/-- Concatenation of the strings produced for each list element, exactly
as a `for` loop appending to an accumulator does. -/
def strConcatMap {α : Type} (f : α → String) : List α → String
  | [] => ""
  | x :: xs => f x ++ strConcatMap f xs

/-- Sum of complement contributions
`complements.reduce((sum, c) => sum + (c.price ?? 0) * c.quantity, 0)`. -/
def complementsTotal (l : List ComplementEntry) : Int :=
  l.foldl (fun s c => s + c.price.getD 0 * c.quantity) 0

/-- Quantity tag `q > 1 ? `${q}x ` : ""` used before item and complement
names. -/
def qtyTag (q : Int) : String := if 1 < q then toString q ++ "x " else ""

/-- Two-digit decimal field. -/
def pad2 (n : Nat) : String := if n < 10 then "0" ++ toString n else toString n

/-- Three-digit decimal field. -/
def pad3 (n : Nat) : String :=
  if n < 10 then "00" ++ toString n
  else if n < 100 then "0" ++ toString n
  else toString n

/-- Insert pt-BR thousands separators into a reversed digit list. -/
def dotGroupsRev : List Char → List Char
  | a :: b :: c :: d :: rest => a :: b :: c :: '.' :: dotGroupsRev (d :: rest)
  | l => l

/-- Decimal rendering of a natural number with pt-BR thousands separators. -/
def groupThousands (n : Nat) : String :=
  String.mk ((dotGroupsRev (toString n).data.reverse).reverse)

/-- Model of `(minor / 100).toLocaleString("pt-BR", {style: "currency",
currency: "BRL"})` applied to an integer amount of minor units: `R$`, a
non-breaking space, the grouped integer part, a decimal comma and two
cent digits (negative amounts get a leading minus). -/
def formatBRL (minor : Int) : String :=
  (if minor < 0 then "-" else "") ++
    ("R$ " ++ (groupThousands (minor.natAbs / 100) ++ ("," ++ pad2 (minor.natAbs % 100))))

/-- ASCII lowercase of a string (model of `String.prototype.toLowerCase`
on the ASCII error messages the classifier inspects). -/
def lowerStr (s : String) : String := String.mk (s.data.map Char.toLower)

/-- Does `pat` occur at the head of the second list? -/
def chMatchAt : List Char → List Char → Bool
  | [], _ => true
  | _ :: _, [] => false
  | a :: as, b :: bs => a = b && chMatchAt as bs

/-- Does `pat` occur anywhere in the list? -/
def chHasSub (pat : List Char) : List Char → Bool
  | [] => pat.isEmpty
  | b :: bs => chMatchAt pat (b :: bs) || chHasSub pat bs

/-- Substring test, model of JS `hay.includes(pat)`. -/
def strContains (hay pat : String) : Bool := chHasSub pat.data hay.data

/-- JS `typeof s === "number" && s >= 500` on a possibly-absent status
(`undefined >= 500` is also false). -/
def statusGE500 : Option Int → Bool
  | some s => 500 ≤ s
  | none => false

/-- Fixed texts of the `ORDER_STATUS_UPDATED` rendering branch shared by
all four revisions, keyed on `order.status`. -/
def statusUpdatedText (s : String) : String :=
  if s = "in_preparation" then "Agora vai! Seu pedido já está *em produção* 🥳"
  else if s = "completed" then "Tô chegando! Seu pedido já está na rota de *entrega* 🛵"
  else ""


/-- Error object as inspected by the classifiers and processors.  Only the
properties the source probes are modelled: `name`, `code`, a direct
`status` property, `response?.status` (where `responseStatus = none`
models `error.response === undefined`), the `response.data` body used in
interpolated messages, and `message`.  JS errors are always truthy, so
the `if (!error) return false` guard is never taken here. -/
structure ErrObj where
  name : String
  code : Option String
  status : Option Int
  responseStatus : Option Int
  responseData : String
  message : String
deriving DecidableEq

/-- Readiness body field `{ state: ... }`; an absent state is `none`. -/
structure InstanceInfo where
  state : Option String
deriving DecidableEq

/-- Readiness body `{ instance: { state: ... } }` (`inst` stands for the
source's `instance` field, which is a reserved word in Lean). -/
structure GatewayData where
  inst : InstanceInfo
deriving DecidableEq

/-- Result of the readiness `GET /instance/connectionState/...` call:
either a JSON body (possibly `null`, hence `Option`) or a thrown error. -/
inductive ReadinessResult where
  | ok (data : Option GatewayData)
  | fail (e : ErrObj)
deriving DecidableEq

/-- Result of the `POST /message/sendText/...` call as seen inside
`sendMessage` before any wrapping that `sendMessage` itself performs. -/
inductive SendResult where
  | ok
  | fail (e : ErrObj)
deriving DecidableEq

/-- How one invocation of the job processor ends. -/
inductive Outcome where
  /-- normal return after a successful send -/
  | sent
  /-- normal return without a successful send -/
  | returned
  /-- `job.moveToDelayed(now + d)` followed by a normal return -/
  | delayed (d : ℚ)
  /-- `job.moveToFailed(e, ...)` followed by a normal return -/
  | movedFailed (e : ErrObj)
  /-- the error `e` escapes `processOrderMessage` (the queue counts a
  failed attempt and applies its retry policy) -/
  | thrown (e : ErrObj)
deriving DecidableEq

/-- Trace of one processor invocation: final outcome, whether the send
call was attempted, every delay passed to `moveToDelayed`, and the
rendered message text. -/
structure ProcResult where
  outcome : Outcome
  sendAttempted : Bool
  delays : List ℚ
  rendered : String
deriving DecidableEq

/-- Three-way failure classification described by the spec (§4.4). -/
inductive FailureClass where
  | Transient
  | NotFound
  | Terminal
deriving DecidableEq

namespace WTS

/-- `calculateItemPrice` of `src/src/worker.ts` (lines 63-73). -/
def calculateItemPrice (i : OrderItem) : Int :=
  let pizzaFlavors := effFlavors i
  if pizzaFlavors.length ≠ 0 then
    let prices := pizzaFlavors.map Flavor.price
    let ty := effPricingType i
    if ty = "sum" then prices.foldl (· + ·) 0
    else if ty = "max" then listMaxD prices
    else roundHalfUp (prices.foldl (· + ·) 0) prices.length
  else i.price.getD 0

/-- `calculateItemPrice` with its two numeric hazards tracked: the
division of the `average` branch and the `Math.max` spread of the `max`
branch would be ill-defined on an empty flavor list. -/
def calculateItemPriceOpt (i : OrderItem) : Option Int :=
  let pizzaFlavors := effFlavors i
  if pizzaFlavors.length ≠ 0 then
    let prices := pizzaFlavors.map Flavor.price
    let ty := effPricingType i
    if ty = "sum" then some (prices.foldl (· + ·) 0)
    else if ty = "max" then listMaxOpt prices
    else roundDivOpt (prices.foldl (· + ·) 0) prices.length
  else some (i.price.getD 0)

/-- `calculateOrderTotal` of `src/src/worker.ts` (lines 75-85). -/
def calculateOrderTotal (o : OrderData) : Int :=
  o.items.foldl
    (fun acc i => acc + (calculateItemPrice i + complementsTotal (effComplements i)) * i.quantity)
    0

/-- `calculateOrderTotal` with the item-price hazards tracked. -/
def calculateOrderTotalOpt (o : OrderData) : Option Int :=
  o.items.foldl
    (fun acc i => acc.bind fun a => (calculateItemPriceOpt i).map fun ip =>
      a + (ip + complementsTotal (effComplements i)) * i.quantity)
    (some 0)

/-- `formatOrderMessage` of `src/src/worker.ts` (lines 87-119): the
status-update branch returns fixed texts; the created branch renders a
header, one block per item (name, optional notes), and the total with a
thank-you line.  This renderer has no flavor, complement, payment-method
or delivery-method output. -/
def formatOrderMessage (o : OrderData) (ty : MsgType) : String :=
  match ty with
  | .ORDER_STATUS_UPDATED =>
      if o.status = "in_preparation" then "Agora vai! Seu pedido já está *em produção* 🥳"
      else if o.status = "completed" then "Tô chegando! Seu pedido já está na rota de *entrega* 🛵"
      else ""
  | .ORDER_CREATED =>
      let total := calculateOrderTotal o
      let totalFormatted := formatBRL total
      ("Pedido *n° " ++ (toString o.code ++ "*\n\n*Itens:*\n")) ++
        (strConcatMap
          (fun i =>
            ("📦 ```" ++ (qtyTag i.quantity ++ (i.name ++ "```\n"))) ++
              ((match i.notes with
                | some s => if s = "" then "" else "*OBS:* " ++ (s ++ "\n")
                | none => "") ++ "\n"))
          o.items ++
        ("Total *" ++ (totalFormatted ++ "*\n\nObrigado pela preferência! 😉")))

/-- `isTemporaryProviderError` of `src/src/worker.ts` (lines 134-139):
connection-fault codes (including `EPIPE`) or `response.status >= 500`.
There is no message-based clause in this revision. -/
def isTemporaryProviderError (e : ErrObj) : Bool :=
  if e.code = some "ECONNRESET" ∨ e.code = some "ETIMEDOUT" ∨ e.code = some "EPIPE" then true
  else if statusGE500 e.responseStatus then true
  else false

/-- Failure classification realised by this revision's processor: a send
error is re-thrown as retryable when `isTemporaryProviderError` holds and
otherwise surfaced as a permanent failure; no error is ever treated as
NotFound (`worker.ts` lines 152-160). -/
def classify (e : ErrObj) : FailureClass :=
  if isTemporaryProviderError e then .Transient else .Terminal

/-- Wrapping of a non-temporary send error,
`new Error("Falha permanente ao enviar mensagem: " + err.message)`. -/
def permWrap (e : ErrObj) : ErrObj :=
  { name := "Error", code := none, status := none, responseStatus := none,
    responseData := "", message := "Falha permanente ao enviar mensagem: " ++ e.message }

/-- `processOrderMessage` of `src/src/worker.ts` (lines 145-161): render,
send, and on failure re-throw temporary errors and throw a fresh
permanent-failure error otherwise.  There is no readiness check in this
revision. -/
def processOrderMessage (o : OrderData) (ty : MsgType) (send : SendResult) : ProcResult :=
  let message := formatOrderMessage o ty
  match send with
  | .ok => ⟨.sent, true, [], message⟩
  | .fail e =>
      if isTemporaryProviderError e then ⟨.thrown e, true, [], message⟩
      else ⟨.thrown (permWrap e), true, [], message⟩

end WTS

/-- Message clause shared by the two `part_000` classifiers:
`msg.includes("timeout") || msg.includes("temporarily unavailable") ||
msg.includes("network")` on the lowercased message. -/
def msgMatchP0 (m : String) : Bool :=
  strContains (lowerStr m) "timeout" ||
    (strContains (lowerStr m) "temporarily unavailable" || strContains (lowerStr m) "network")

namespace P0A

/-- `calculateItemPrice` of `src/unnamed/part_000`, first revision (lines
38-56).  The strategy chain has no final `else`: an unrecognized truthy
strategy falls out of the `if` block and returns `item.price ?? 0`. -/
def calculateItemPrice (i : OrderItem) : Int :=
  let pizzaFlavors := effFlavors i
  if pizzaFlavors.length ≠ 0 then
    let flavorPrices := pizzaFlavors.map Flavor.price
    let pricingType := effPricingType i
    if pricingType = "sum" then flavorPrices.foldl (· + ·) 0
    else if pricingType = "average" then
      roundHalfUp (flavorPrices.foldl (· + ·) 0) flavorPrices.length
    else if pricingType = "max" then listMaxD flavorPrices
    else i.price.getD 0
  else i.price.getD 0

/-- `calculateOrderTotal` of `part_000` (first revision, lines 59-75; the
second revision, lines 371-387, is textually identical). -/
def calculateOrderTotal (o : OrderData) : Int :=
  o.items.foldl
    (fun acc i =>
      let itemPrice := calculateItemPrice i
      let cTot := match (i.complements).orElse fun _ => i.orderItemComplements with
        | some l => complementsTotal l
        | none => 0
      acc + (itemPrice + cTot) * i.quantity)
    0

/-- Flavors block of one rendered item (`part_000` lines 100-107): empty
when the effective flavor list is empty, otherwise a `_Sabores_` header
and one line per flavor carrying the `1/N` fraction tag. -/
def flavorsBlock (i : OrderItem) : String :=
  let pizzaFlavors := effFlavors i
  if pizzaFlavors.length ≠ 0 then
    "\n     _Sabores_" ++
      strConcatMap
        (fun f => "\n           ```" ++ ("1/" ++ (toString pizzaFlavors.length ++ (" " ++ (f.name ++ "```")))))
        pizzaFlavors
  else ""

/-- Complements block of one rendered item (`part_000` lines 109-115);
this block reads `item.orderItemComplements` only. -/
def complementsBlock (i : OrderItem) : String :=
  match i.orderItemComplements with
  | some l =>
      if l.length ≠ 0 then
        "\n     _Complementos_" ++
          strConcatMap (fun c => "\n           ```" ++ (qtyTag c.quantity ++ (c.name ++ "```"))) l
      else ""
  | none => ""

/-- Notes annotation of one rendered item (`part_000` lines 117-119);
an absent or empty `notes` string is falsy and renders nothing. -/
def notesBlock (i : OrderItem) : String :=
  match i.notes with
  | some s => if s = "" then "" else "\n\n*OBS:* " ++ (s ++ "\n")
  | none => ""

/-- One loop iteration of the item loop (`part_000` lines 95-121). -/
def itemBlock (i : OrderItem) : String :=
  ("📦 ```" ++ (qtyTag i.quantity ++ (i.name ++ "```"))) ++
    (flavorsBlock i ++ (complementsBlock i ++ (notesBlock i ++ "\n")))

/-- Payment glyph (`part_000` line 128). -/
def payGlyph (o : OrderData) : String :=
  if o.paymentMethod = "cash" ∨ o.paymentMethod = "pix" then "💵" else "💳"

/-- Payment phrase (`part_000` lines 130-139): cash shows the change due
(`order.change` is falsy when absent or 0), pix its own label, and
everything else, including unknown methods, the card label. -/
def payPhrase (o : OrderData) : String :=
  if o.paymentMethod = "cash" then
    match o.change with
    | some c => if c = 0 then "*Dinheiro (não precisa de troco)*"
        else "*Dinheiro (troco para " ++ (formatBRL c ++ ")*")
    | none => "*Dinheiro (não precisa de troco)*"
  else if o.paymentMethod = "pix" then "*Pix*"
  else "*Cartão*"

/-- Delivery phrase (`part_000` lines 142-147): unknown or absent codes
fall through to dine-in. -/
def delivPhrase (o : OrderData) : String :=
  if o.deliveryMethodCode = some "delivery" then "*Delivery*"
  else if o.deliveryMethodCode = some "pickup" then "*Retirada no local*"
  else "*Consumo no local*"

/-- Truthiness of `order.notes`. -/
def orderNotesTruthy (o : OrderData) : Bool :=
  match o.notes with
  | some s => s ≠ ""
  | none => false

/-- Tail of the created-order message (`part_000` lines 127-151): payment
line, delivery line, total and thank-you line. -/
def tailBlock (o : OrderData) : String :=
  (if orderNotesTruthy o then "\n" else "") ++
    ("\n" ++ (payGlyph o ++ (" " ++ (payPhrase o ++
      ("\n🛵 " ++ (delivPhrase o ++
        ("\n\nTotal *" ++ (formatBRL (calculateOrderTotal o) ++
          "*\n\nObrigado pela preferência, se precisar de algo é só chamar! 😉"))))))))

/-- `formatOrderMessage` of `part_000` (first revision, lines 77-161; the
second revision, lines 389-473, is textually identical). -/
def formatOrderMessage (o : OrderData) (ty : MsgType) : String :=
  match ty with
  | .ORDER_CREATED =>
      ("Pedido *n° " ++ (toString o.code ++ "*\n\n*Itens:*\n")) ++
        (strConcatMap itemBlock o.items ++
          ((if orderNotesTruthy o then "\n*OBS:* " ++ o.notes.getD "" else "") ++ tailBlock o))
  | .ORDER_STATUS_UPDATED =>
      if o.status = "in_preparation" then "Agora vai! Seu pedido já está *em produção* 🥳"
      else if o.status = "completed" then "Tô chegando! Seu pedido já está na rota de *entrega* 🛵"
      else ""

/-- `isTemporaryProviderError` of `part_000`, first revision (lines
197-216): `FetchError` name or connection codes, then a direct
`error.status >= 500` check (this revision does not consult
`error.response.status` here), then the message clause. -/
def isTemporaryProviderError (e : ErrObj) : Bool :=
  if e.name = "FetchError" ∨ e.code = some "ECONNRESET" ∨ e.code = some "ETIMEDOUT" then true
  else if statusGE500 e.status then true
  else if msgMatchP0 e.message then true
  else false

/-- Wrapping performed by this revision's `sendMessage` (lines 188-194):
an error with a response is replaced by
`new Error("Evolution API error: <status> - <data>")` with no `status`
property attached; other errors are re-thrown unchanged. -/
def sendWrap (e : ErrObj) : ErrObj :=
  match e.responseStatus with
  | some s =>
      { name := "Error", code := none, status := none, responseStatus := none,
        responseData := "",
        message := "Evolution API error: " ++ (toString s ++ (" - " ++ e.responseData)) }
  | none => e

/-- Wrapping performed by the readiness catch (lines 238-248): same
message, but this wrapper also sets `err.status`. -/
def readinessWrap (e : ErrObj) : ErrObj :=
  match e.responseStatus with
  | some s =>
      { name := "Error", code := none, status := some s, responseStatus := none,
        responseData := "",
        message := "Evolution API error: " ++ (toString s ++ (" - " ++ e.responseData)) }
  | none => e

/-- `!data?.instance.state || data.instance.state !== "open"` (line 250):
a missing body, a missing or empty state string, and any state other than
`"open"` are all not-open. -/
def notOpen (data : Option GatewayData) : Bool :=
  match data with
  | none => true
  | some d =>
      match d.inst.state with
      | none => true
      | some s => s = "" || s ≠ "open"

/-- `processOrderMessage` of `part_000`, first revision (lines 218-271).
`r` models `Math.random()`.  A not-open instance is moved to delayed by
`60000 + r * 60000` milliseconds and the handler returns; a send failure
is re-thrown when temporary and moved to failed otherwise. -/
def processOrderMessage (o : OrderData) (ty : MsgType) (readiness : ReadinessResult)
    (send : SendResult) (r : ℚ) : ProcResult :=
  let message := formatOrderMessage o ty
  match readiness with
  | .fail e => ⟨.thrown (readinessWrap e), false, [], message⟩
  | .ok data =>
      if notOpen data then
        let delay := 60000 + r * 60000
        ⟨.delayed delay, false, [delay], message⟩
      else
        match send with
        | .ok => ⟨.sent, true, [], message⟩
        | .fail e =>
            let err := sendWrap e
            if isTemporaryProviderError err then ⟨.thrown err, true, [], message⟩
            else ⟨.movedFailed err, true, [], message⟩

end P0A

namespace P0B

/-- `calculateItemPrice` of `src/unnamed/part_000`, second revision
(lines 351-368): textually identical to the first revision, so the `P0A`
embedding is reused. -/
def calculateItemPrice : OrderItem → Int := P0A.calculateItemPrice

/-- `calculateOrderTotal` of the second revision (lines 371-387),
textually identical to the first revision. -/
def calculateOrderTotal : OrderData → Int := P0A.calculateOrderTotal

/-- `formatOrderMessage` of the second revision (lines 389-473),
textually identical to the first revision. -/
def formatOrderMessage : OrderData → MsgType → String := P0A.formatOrderMessage

/-- `isTemporaryProviderError` of the second revision (lines 510-530):
like the first revision but the status check reads
`error.status ?? error.response?.status`. -/
def isTemporaryProviderError (e : ErrObj) : Bool :=
  if e.name = "FetchError" ∨ e.code = some "ECONNRESET" ∨ e.code = some "ETIMEDOUT" then true
  else if statusGE500 ((e.status).orElse fun _ => e.responseStatus) then true
  else if msgMatchP0 e.message then true
  else false

/-- Three-way classification realised by this revision's processor: the
`error.response?.status === 404` guards (lines 553-558 and 578-584) name
the NotFound case, `isTemporaryProviderError` the Transient case, and
everything else is Terminal. -/
def classify (e : ErrObj) : FailureClass :=
  if e.responseStatus = some 404 then .NotFound
  else if isTemporaryProviderError e then .Transient
  else .Terminal

/-- Wrapping performed by this revision's `sendMessage` (lines 500-507):
every error is replaced by `new Error("Failed to send message: " +
error.message)` whose `status` property holds `error.response?.status`
(the wrapper itself has no `response`). -/
def sendWrap (e : ErrObj) : ErrObj :=
  { name := "Error", code := none, status := e.responseStatus, responseStatus := none,
    responseData := "", message := "Failed to send message: " ++ e.message }

/-- The `Error("Evolution instance not ready")` with `status = 503`
thrown at lines 569-571. -/
def notReadyErr : ErrObj :=
  { name := "Error", code := none, status := some 503, responseStatus := none,
    responseData := "", message := "Evolution instance not ready" }

/-- `processOrderMessage` of `part_000`, second revision (lines 532-591):
a readiness 404 is logged and swallowed; a not-open instance throws the
503 `notReadyErr`; a send failure is wrapped by `sendWrap` and then
re-thrown on every path (the `err.response?.status === 404` guard can
never fire on the wrapper, which carries the status in `err.status`). -/
def processOrderMessage (o : OrderData) (ty : MsgType) (readiness : ReadinessResult)
    (send : SendResult) : ProcResult :=
  let message := formatOrderMessage o ty
  match readiness with
  | .fail e =>
      if e.responseStatus = some 404 then ⟨.returned, false, [], message⟩
      else ⟨.thrown e, false, [], message⟩
  | .ok data =>
      if P0A.notOpen data then ⟨.thrown notReadyErr, false, [], message⟩
      else
        match send with
        | .ok => ⟨.sent, true, [], message⟩
        | .fail e =>
            let err := sendWrap e
            if err.responseStatus = some 404 then ⟨.returned, true, [], message⟩
            else if isTemporaryProviderError err then ⟨.thrown err, true, [], message⟩
            else ⟨.thrown err, true, [], message⟩

end P0B

/-- Message clause of the `part_001` classifier,
`/timeout|network|temporarily/i.test(error.message ?? "")`. -/
def msgMatchP1 (m : String) : Bool :=
  strContains (lowerStr m) "timeout" ||
    (strContains (lowerStr m) "network" || strContains (lowerStr m) "temporarily")

namespace P1

/-- `calculateItemPrice` of `src/unnamed/part_001` (lines 46-59):
textually identical to the `worker.ts` version, so that embedding is
reused. -/
def calculateItemPrice : OrderItem → Int := WTS.calculateItemPrice

/-- `calculateOrderTotal` of `part_001` (lines 61-73), textually
identical to the `worker.ts` version. -/
def calculateOrderTotal : OrderData → Int := WTS.calculateOrderTotal

/-- One loop iteration of the item loop of `part_001` (lines 97-123). -/
def itemBlock (i : OrderItem) : String :=
  ("📦 ```" ++ (qtyTag i.quantity ++ (i.name ++ "```\n"))) ++
    ((let flavors := effFlavors i
      if flavors.length ≠ 0 then
        "     _Sabores_\n" ++
          strConcatMap
            (fun f => "           ```" ++ ("1/" ++ (toString flavors.length ++ (" " ++ (f.name ++ "```\n")))))
            flavors
      else "") ++
      ((match i.orderItemComplements with
        | some l =>
            if l.length ≠ 0 then
              "     _Complementos_\n" ++
                strConcatMap (fun c => "           ```" ++ (qtyTag c.quantity ++ (c.name ++ "```\n"))) l
            else ""
        | none => "") ++
        ((match i.notes with
          | some s => if s = "" then "" else "\n*OBS:* " ++ (s ++ "\n")
          | none => "") ++ "\n")))

/-- `formatOrderMessage` of `part_001` (lines 75-132): same status-update
branch; the created branch renders header, per-item blocks with flavors
and complements, optional order notes, and the total with a thank-you
line — but no payment-method or delivery-method lines. -/
def formatOrderMessage (o : OrderData) (ty : MsgType) : String :=
  match ty with
  | .ORDER_STATUS_UPDATED =>
      if o.status = "in_preparation" then "Agora vai! Seu pedido já está *em produção* 🥳"
      else if o.status = "completed" then "Tô chegando! Seu pedido já está na rota de *entrega* 🛵"
      else ""
  | .ORDER_CREATED =>
      ("Pedido *n° " ++ (toString o.code ++ "*\n\n*Itens:*\n")) ++
        (strConcatMap itemBlock o.items ++
          ((match o.notes with
            | some s => if s = "" then "" else "*OBS:* " ++ (s ++ "\n\n")
            | none => "") ++
            ("Total *" ++ (formatBRL (calculateOrderTotal o) ++
              "*\n\nObrigado pela preferência! 😉"))))

/-- `isTemporaryProviderError` of `part_001` (lines 158-166):
`status ?? response?.status` at least 500 (a zero status is falsy and
also fails `>= 500`), connection codes, or the message pattern. -/
def isTemporaryProviderError (e : ErrObj) : Bool :=
  if statusGE500 ((e.status).orElse fun _ => e.responseStatus) then true
  else (e.code = some "ECONNRESET" ∨ e.code = some "ETIMEDOUT" : Bool) || msgMatchP1 e.message

/-- Wrapping performed by this revision's `sendMessage` (lines 150-155):
`new Error("Failed to send message")` with `status =
error.response?.status` (the `original` property it also attaches is
never inspected anywhere and is not modelled). -/
def sendWrap (e : ErrObj) : ErrObj :=
  { name := "Error", code := none, status := e.responseStatus, responseStatus := none,
    responseData := "", message := "Failed to send message" }

/-- `instanceState?.instance?.state !== "open"` (line 190). -/
def notOpen (data : Option GatewayData) : Bool :=
  (data.bind fun d => d.inst.state) ≠ some "open"

/-- `Object.assign(new Error("Evolution instance not found"), {status: 404})`
thrown at line 185. -/
def notFoundErr : ErrObj :=
  { name := "Error", code := none, status := some 404, responseStatus := none,
    responseData := "", message := "Evolution instance not found" }

/-- The `Error("Evolution instance not ready")` with `status = 503`
thrown at lines 191-193. -/
def notReadyErr : ErrObj :=
  { name := "Error", code := none, status := some 503, responseStatus := none,
    responseData := "", message := "Evolution instance not ready" }

/-- `processOrderMessage` of `part_001` (lines 168-208): a readiness 404
throws `notFoundErr`; any other readiness error is re-thrown; a not-open
instance throws the 503 `notReadyErr`; a wrapped send failure is
re-thrown on every path (404, temporary, and the final `throw err`). -/
def processOrderMessage (o : OrderData) (ty : MsgType) (readiness : ReadinessResult)
    (send : SendResult) : ProcResult :=
  let message := formatOrderMessage o ty
  match readiness with
  | .fail e =>
      if e.responseStatus = some 404 then ⟨.thrown notFoundErr, false, [], message⟩
      else ⟨.thrown e, false, [], message⟩
  | .ok data =>
      if notOpen data then ⟨.thrown notReadyErr, false, [], message⟩
      else
        match send with
        | .ok => ⟨.sent, true, [], message⟩
        | .fail e =>
            let err := sendWrap e
            if err.status = some 404 then ⟨.thrown err, true, [], message⟩
            else if isTemporaryProviderError err then ⟨.thrown err, true, [], message⟩
            else ⟨.thrown err, true, [], message⟩

end P1

/-- Message clause as worded by claim C2 / spec §4.4: timeout, network or
temporarily-unavailable phrasing, matched case-insensitively as a
substring. -/
def claimMsgMatch (m : String) : Bool :=
  strContains (lowerStr m) "timeout" ||
    (strContains (lowerStr m) "network" || strContains (lowerStr m) "temporarily unavailable")

/-- Transient condition as worded by claim C2: an HTTP status of at least
500 carried by the error (directly or on its response), a connection
fault code equivalent to connection-reset/timeout, or the message
clause. -/
def ClaimTransient (e : ErrObj) : Prop :=
  statusGE500 ((e.status).orElse fun _ => e.responseStatus) = true
  ∨ e.code = some "ECONNRESET" ∨ e.code = some "ETIMEDOUT"
  ∨ claimMsgMatch e.message = true

/-- A minimal order used to instantiate processor theorems. -/
def sampleOrder : OrderData :=
  { code := 42, customerName := "Ana", customerPhone := "5511999990000",
    notes := none, paymentMethod := "pix", change := none, status := "pending",
    updatedAt := "2024-01-01T00:00:00Z", deliveryMethodCode := none, items := [] }

/-- Readiness body with the ready state. -/
def openData : Option GatewayData := some ⟨⟨some "open"⟩⟩

/-- Readiness body with a not-open state. -/
def connectingData : Option GatewayData := some ⟨⟨some "connecting"⟩⟩

/-- A connection-reset fault. -/
def resetErr : ErrObj :=
  ⟨"Error", some "ECONNRESET", none, none, "", "socket hang up"⟩

/-- A plain HTTP 400 failure with no network-fault markers. -/
def plain400Err : ErrObj :=
  ⟨"AxiosError", none, none, some 400, "Bad Request", "Request failed with status code 400"⟩

/-- An HTTP 404 instance-not-found failure. -/
def resp404Err : ErrObj :=
  ⟨"AxiosError", none, none, some 404, "Not Found", "Request failed with status code 404"⟩

/-- An HTTP 503 failure. -/
def resp503Err : ErrObj :=
  ⟨"AxiosError", none, none, some 503, "Service Unavailable", "Request failed with status code 503"⟩

/-- An error whose only marker is the `FetchError` name. -/
def fetchNameErr : ErrObj :=
  ⟨"FetchError", none, none, none, "", "request to the provider failed"⟩

/-- An error whose only marker is timeout phrasing in its message. -/
def msgTimeoutErr : ErrObj :=
  ⟨"Error", none, none, none, "", "connection TIMEOUT while sending"⟩

/-- An order line with flavors priced 500 and 700 and the given pricing
strategy. -/
def flavorItem (ptype : Option String) : OrderItem :=
  { quantity := 1, name := "Pizza", price := some 0, notes := none,
    orderItemComplements := none, complements := none,
    pizzaFlavors := some [⟨"Calabresa", 500⟩, ⟨"Mussarela", 700⟩],
    orderItemPizzaFlavors := none, pizzaPricingType := ptype, pizzaConfig := none }

/-- Flavor line with an unrecognized strategy and base price 999. -/
def itemOther999 : OrderItem := { flavorItem (some "promotional") with price := some 999 }

/-- Flavor line identical to `itemOther999` except for its base price. -/
def itemOther0 : OrderItem := { flavorItem (some "promotional") with price := some 0 }

/-- A flavorless line with no price field. -/
def itemPlain : OrderItem :=
  { quantity := 2, name := "Coxinha", price := none, notes := none,
    orderItemComplements := none, complements := none, pizzaFlavors := none,
    orderItemPizzaFlavors := none, pizzaPricingType := none, pizzaConfig := none }

/-- Complement entries used as a concrete permutation pair. -/
def compA : ComplementEntry := ⟨1, "Bacon", some 300⟩

/-- Second complement entry of the concrete permutation pair. -/
def compB : ComplementEntry := ⟨2, "Catupiry", some 450⟩

/-- An order with a two-flavor cash-paid delivery item, used to compare
the renderers. -/
def flavorCashOrder : OrderData :=
  { code := 7, customerName := "Bia", customerPhone := "5511988887777",
    notes := none, paymentMethod := "cash", change := some 300, status := "pending",
    updatedAt := "2024-01-02T00:00:00Z", deliveryMethodCode := some "delivery",
    items := [
      { quantity := 2, name := "Pizza Grande", price := some 0, notes := none,
        orderItemComplements := some [⟨1, "Borda recheada", some 500⟩],
        complements := none,
        pizzaFlavors := some [⟨"Calabresa", 1000⟩, ⟨"Quatro Queijos", 1400⟩],
        orderItemPizzaFlavors := none, pizzaPricingType := some "average",
        pizzaConfig := none }
    ] }

/-- Occurrence of `pat` as a substring of `hay`, phrased by explicit
decomposition. -/
def StrIn (pat hay : String) : Prop := ∃ pre post, hay = pre ++ (pat ++ post)

/-- An order with an unknown payment method and unknown delivery code. -/
def cardOrder : OrderData :=
  { code := 9, customerName := "Caio", customerPhone := "5511977776666",
    notes := none, paymentMethod := "voucher", change := none, status := "pending",
    updatedAt := "2024-01-03T00:00:00Z", deliveryMethodCode := some "drone",
    items := [flavorItem (some "average")] }

/-! ### Helper lemmas -/

theorem strIn_refl (p post : String) : StrIn p (p ++ post) :=
  ⟨"", post, rfl⟩

theorem strIn_append_left (p a h : String) : StrIn p h → StrIn p (a ++ h) := by
  rintro ⟨pre, post, rfl⟩
  exact ⟨a ++ pre, post, (String.append_assoc a pre _).symm⟩

theorem strIn_append_right (p b h : String) : StrIn p h → StrIn p (h ++ b) := by
  rintro ⟨pre, post, rfl⟩
  refine ⟨pre, post ++ b, ?_⟩
  rw [String.append_assoc, String.append_assoc]

theorem strIn_concatMap {α : Type} (f : α → String) (x : α) :
    ∀ l : List α, x ∈ l → StrIn (f x) (strConcatMap f l) := by
  intro l hx
  induction l with
  | nil => cases hx
  | cons y ys ih =>
      rcases List.mem_cons.mp hx with h | h
      · subst h; exact strIn_refl _ _
      · exact strIn_append_left _ _ _ (ih h)

/-- A string ends in `t`. -/
def StrSuffix (t hay : String) : Prop := ∃ pre, hay = pre ++ t

theorem strSuffix_refl (t : String) : StrSuffix t t :=
  ⟨"", rfl⟩

theorem strSuffix_append_left (t a h : String) : StrSuffix t h → StrSuffix t (a ++ h) := by
  rintro ⟨pre, rfl⟩
  exact ⟨a ++ pre, (String.append_assoc a pre t).symm⟩

theorem strIn_of_strSuffix (t hay : String) : StrSuffix t hay → StrIn t hay := by
  rintro ⟨pre, rfl⟩
  exact ⟨pre, "", by rw [String.append_empty]⟩

theorem foldl_add_map {α : Type} (f : α → Int) (l : List α) :
    ∀ a : Int, l.foldl (fun s x => s + f x) a = a + (l.map f).sum := by
  induction l with
  | nil => intro a; simp
  | cons x xs ih => intro a; simp [ih, add_assoc]

theorem foldl_add_self (l : List Int) : l.foldl (· + ·) 0 = l.sum := by
  rw [List.sum_eq_foldl]

theorem complementsTotal_eq_sum (l : List ComplementEntry) :
    complementsTotal l = (l.map fun c => c.price.getD 0 * c.quantity).sum := by
  unfold complementsTotal
  rw [foldl_add_map]
  simp

theorem complementsTotal_perm (l₁ l₂ : List ComplementEntry) (h : l₁.Perm l₂) :
    complementsTotal l₁ = complementsTotal l₂ := by
  rw [complementsTotal_eq_sum, complementsTotal_eq_sum]
  exact (h.map _).sum_eq

theorem wts_itemPriceOpt_eq (i : OrderItem) :
    WTS.calculateItemPriceOpt i = some (WTS.calculateItemPrice i) := by
  unfold WTS.calculateItemPriceOpt WTS.calculateItemPrice
  rcases hf : effFlavors i with _ | ⟨f, fs⟩
  · simp
  · simp only [List.length_cons]
    split_ifs <;> simp [listMaxOpt, listMaxD, roundDivOpt] <;> omega

theorem wts_price_indep (i : OrderItem) (p : Option Int) (h : effFlavors i ≠ []) :
    WTS.calculateItemPrice { i with price := p } = WTS.calculateItemPrice i := by
  have hlen : (effFlavors i).length ≠ 0 := fun h0 => h (List.length_eq_zero.mp h0)
  have hf : effFlavors { i with price := p } = effFlavors i := rfl
  have ht : effPricingType { i with price := p } = effPricingType i := rfl
  unfold WTS.calculateItemPrice
  rw [hf, ht, if_pos hlen, if_pos hlen]

theorem wts_default_avg (i : OrderItem) (h : effFlavors i ≠ [])
    (hs : effPricingType i ≠ "sum") (hm : effPricingType i ≠ "max") :
    WTS.calculateItemPrice i
      = roundHalfUp ((effFlavors i).map Flavor.price).sum (effFlavors i).length := by
  have hlen : (effFlavors i).length ≠ 0 := fun h0 => h (List.length_eq_zero.mp h0)
  unfold WTS.calculateItemPrice
  rw [if_pos hlen, if_neg hs, if_neg hm, foldl_add_self, List.length_map]

theorem wts_total_formula (o : OrderData) :
    WTS.calculateOrderTotal o
      = (o.items.map fun i =>
          (WTS.calculateItemPrice i +
            ((effComplements i).map fun c => c.price.getD 0 * c.quantity).sum) * i.quantity).sum := by
  unfold WTS.calculateOrderTotal
  rw [foldl_add_map]
  simp [complementsTotal_eq_sum]

theorem p0a_line_eq (i : OrderItem) :
    (match (i.complements).orElse fun _ => i.orderItemComplements with
     | some l => complementsTotal l
     | none => 0) = ((effComplements i).map fun c => c.price.getD 0 * c.quantity).sum := by
  rcases h : (i.complements).orElse fun _ => i.orderItemComplements with _ | l <;>
    simp [effComplements, h, complementsTotal_eq_sum]

theorem p0a_total_formula (o : OrderData) :
    P0A.calculateOrderTotal o
      = (o.items.map fun i =>
          (P0A.calculateItemPrice i +
            ((effComplements i).map fun c => c.price.getD 0 * c.quantity).sum) * i.quantity).sum := by
  have h1 : P0A.calculateOrderTotal o
      = o.items.foldl (fun acc i => acc +
          (P0A.calculateItemPrice i +
            (match (i.complements).orElse fun _ => i.orderItemComplements with
             | some l => complementsTotal l
             | none => 0)) * i.quantity) 0 := rfl
  rw [h1, foldl_add_map]
  simp [p0a_line_eq]

theorem wts_totalOpt_eq (o : OrderData) :
    WTS.calculateOrderTotalOpt o = some (WTS.calculateOrderTotal o) := by
  suffices h : ∀ (l : List OrderItem) (a : Int),
      l.foldl (fun acc i => acc.bind fun x => (WTS.calculateItemPriceOpt i).map fun ip =>
        x + (ip + complementsTotal (effComplements i)) * i.quantity) (some a)
      = some (l.foldl (fun acc i =>
          acc + (WTS.calculateItemPrice i + complementsTotal (effComplements i)) * i.quantity) a) by
    exact h o.items 0
  intro l
  induction l with
  | nil => intro a; rfl
  | cons x xs ih =>
      intro a
      rw [List.foldl_cons, List.foldl_cons]
      have hx : ((some a).bind fun y => (WTS.calculateItemPriceOpt x).map fun ip =>
            y + (ip + complementsTotal (effComplements x)) * x.quantity)
          = some (a + (WTS.calculateItemPrice x + complementsTotal (effComplements x)) * x.quantity) := by
        rw [wts_itemPriceOpt_eq]
        rfl
      rw [hx]
      exact ih _

theorem claimMsgMatch_eq_p0 (m : String) : claimMsgMatch m = msgMatchP0 m :=
  congrArg (strContains (lowerStr m) "timeout" || ·) (Bool.or_comm _ _)

theorem p0b_isTemp_iff (e : ErrObj) :
    P0B.isTemporaryProviderError e = true ↔ (ClaimTransient e ∨ e.name = "FetchError") := by
  unfold P0B.isTemporaryProviderError ClaimTransient
  rw [claimMsgMatch_eq_p0]
  split_ifs with h1 h2 h3 <;> simp_all <;> tauto

theorem wts_isTemp_iff (e : ErrObj) :
    WTS.isTemporaryProviderError e = true
      ↔ (e.code = some "ECONNRESET" ∨ e.code = some "ETIMEDOUT" ∨ e.code = some "EPIPE"
          ∨ statusGE500 e.responseStatus = true) := by
  unfold WTS.isTemporaryProviderError
  split_ifs with h1 h2 <;> simp_all <;> tauto

theorem p0b_classify_notFound_iff (e : ErrObj) :
    P0B.classify e = .NotFound ↔ e.responseStatus = some 404 := by
  unfold P0B.classify
  split_ifs with h1 h2 <;> simp_all

theorem p0b_classify_transient_iff (e : ErrObj) :
    P0B.classify e = .Transient
      ↔ (e.responseStatus ≠ some 404 ∧ (ClaimTransient e ∨ e.name = "FetchError")) := by
  unfold P0B.classify
  split_ifs with h1 h2
  · simp_all
  · simpa [h1] using (p0b_isTemp_iff e).mp h2
  · have := (p0b_isTemp_iff e).not.mp (by simp [h2])
    simp_all

theorem p0b_classify_terminal_iff (e : ErrObj) :
    P0B.classify e = .Terminal
      ↔ (e.responseStatus ≠ some 404 ∧ ¬ (ClaimTransient e ∨ e.name = "FetchError")) := by
  unfold P0B.classify
  split_ifs with h1 h2
  · simp_all
  · have := (p0b_isTemp_iff e).mp h2
    simp_all
  · have := (p0b_isTemp_iff e).not.mp (by simp [h2])
    simp_all

theorem p0a_notReady_delay (o : OrderData) (ty : MsgType) (data : Option GatewayData)
    (send : SendResult) (r : ℚ) (h : P0A.notOpen data = true) :
    P0A.processOrderMessage o ty (.ok data) send r
      = ⟨.delayed (60000 + r * 60000), false, [60000 + r * 60000],
          P0A.formatOrderMessage o ty⟩ := by
  simp [P0A.processOrderMessage, h]

theorem p0a_send_fail (o : OrderData) (ty : MsgType) (data : Option GatewayData) (e : ErrObj)
    (r : ℚ) (h : P0A.notOpen data = false) :
    P0A.processOrderMessage o ty (.ok data) (.fail e) r
      = if P0A.isTemporaryProviderError (P0A.sendWrap e)
        then ⟨.thrown (P0A.sendWrap e), true, [], P0A.formatOrderMessage o ty⟩
        else ⟨.movedFailed (P0A.sendWrap e), true, [], P0A.formatOrderMessage o ty⟩ := by
  simp [P0A.processOrderMessage, h]

theorem p0b_readiness404 (o : OrderData) (ty : MsgType) (send : SendResult) (e : ErrObj)
    (h : e.responseStatus = some 404) :
    P0B.processOrderMessage o ty (.fail e) send
      = ⟨.returned, false, [], P0B.formatOrderMessage o ty⟩ := by
  simp [P0B.processOrderMessage, h]

theorem delay_window (r : ℚ) (h0 : 0 ≤ r) (h1 : r < 1) :
    60000 ≤ 60000 + r * 60000 ∧ 60000 + r * 60000 < 120000 := by
  constructor <;> nlinarith

theorem p0a_msg_decomp (o : OrderData) :
    P0A.formatOrderMessage o .ORDER_CREATED
      = ("Pedido *n° " ++ (toString o.code ++ "*\n\n*Itens:*\n")) ++
        (strConcatMap P0A.itemBlock o.items ++
          ((if P0A.orderNotesTruthy o then "\n*OBS:* " ++ o.notes.getD "" else "") ++
            P0A.tailBlock o)) := rfl

theorem p0a_itemBlock_decomp (i : OrderItem) :
    P0A.itemBlock i
      = ("📦 ```" ++ (qtyTag i.quantity ++ (i.name ++ "```"))) ++
        (P0A.flavorsBlock i ++ (P0A.complementsBlock i ++ (P0A.notesBlock i ++ "\n"))) := rfl

theorem p0a_items_in (o : OrderData) (i : OrderItem) (h : i ∈ o.items) :
    StrIn (P0A.itemBlock i) (P0A.formatOrderMessage o .ORDER_CREATED) := by
  rw [p0a_msg_decomp]
  exact strIn_append_left _ _ _
    (strIn_append_right _ _ _ (strIn_concatMap P0A.itemBlock i o.items h))

theorem p0a_tail_suffix (o : OrderData) :
    StrSuffix
      ("\n" ++ (P0A.payGlyph o ++ (" " ++ (P0A.payPhrase o ++
        ("\n🛵 " ++ (P0A.delivPhrase o ++
          ("\n\nTotal *" ++ (formatBRL (P0A.calculateOrderTotal o) ++
            "*\n\nObrigado pela preferência, se precisar de algo é só chamar! 😉"))))))))
      (P0A.formatOrderMessage o .ORDER_CREATED) := by
  rw [p0a_msg_decomp]
  apply strSuffix_append_left
  apply strSuffix_append_left
  apply strSuffix_append_left
  exact strSuffix_append_left _ _ _ (strSuffix_refl _)

theorem p0a_itemBlock_q1 (i : OrderItem) (h : i.quantity ≤ 1) :
    P0A.itemBlock i
      = "📦 ```" ++ (i.name ++ ("```" ++ (P0A.flavorsBlock i ++
          (P0A.complementsBlock i ++ (P0A.notesBlock i ++ "\n"))))) := by
  rw [p0a_itemBlock_decomp]
  unfold qtyTag
  rw [if_neg (Int.not_lt.mpr h)]
  simp only [String.empty_append, String.append_assoc]

theorem p0a_itemBlock_qn (i : OrderItem) (h : 1 < i.quantity) :
    P0A.itemBlock i
      = "📦 ```" ++ (toString i.quantity ++ ("x " ++ (i.name ++ ("```" ++ (P0A.flavorsBlock i ++
          (P0A.complementsBlock i ++ (P0A.notesBlock i ++ "\n"))))))) := by
  rw [p0a_itemBlock_decomp]
  unfold qtyTag
  rw [if_pos h]
  simp only [String.append_assoc]

theorem p0a_flavorsBlock_nil (i : OrderItem) (h : effFlavors i = []) :
    P0A.flavorsBlock i = "" := by
  simp [P0A.flavorsBlock, h]

theorem p0a_flavorsBlock_ne (i : OrderItem) (h : effFlavors i ≠ []) :
    P0A.flavorsBlock i
      = "\n     _Sabores_" ++
          strConcatMap
            (fun f => "\n           ```" ++
              ("1/" ++ (toString (effFlavors i).length ++ (" " ++ (f.name ++ "```")))))
            (effFlavors i) := by
  have hlen : (effFlavors i).length ≠ 0 := fun h0 => h (List.length_eq_zero.mp h0)
  unfold P0A.flavorsBlock
  rw [if_pos hlen]

theorem p0a_sabores_in (i : OrderItem) (h : effFlavors i ≠ []) :
    StrIn "\n     _Sabores_" (P0A.itemBlock i) := by
  rw [p0a_itemBlock_decomp]
  apply strIn_append_left
  apply strIn_append_right
  rw [p0a_flavorsBlock_ne i h]
  exact strIn_refl _ _

theorem p0a_flavorLine_in (i : OrderItem) (f : Flavor) (hf : f ∈ effFlavors i) :
    StrIn
      ("\n           ```" ++ ("1/" ++ (toString (effFlavors i).length ++ (" " ++ (f.name ++ "```")))))
      (P0A.itemBlock i) := by
  have h : effFlavors i ≠ [] := by
    intro h0
    rw [h0] at hf
    cases hf
  rw [p0a_itemBlock_decomp]
  apply strIn_append_left
  apply strIn_append_right
  rw [p0a_flavorsBlock_ne i h]
  exact strIn_append_left _ _ _ (strIn_concatMap _ f (effFlavors i) hf)

theorem p0a_complementsBlock_empty (i : OrderItem) (h : i.orderItemComplements.getD [] = []) :
    P0A.complementsBlock i = "" := by
  rcases ho : i.orderItemComplements with _ | l
  · simp [P0A.complementsBlock, ho]
  · rw [ho] at h
    simp only [Option.getD_some] at h
    simp [P0A.complementsBlock, ho, h]

theorem p0a_notesBlock_none (i : OrderItem) (h : i.notes = none) :
    P0A.notesBlock i = "" := by
  simp [P0A.notesBlock, h]

theorem p0a_pay_default (o : OrderData) (h1 : o.paymentMethod ≠ "cash")
    (h2 : o.paymentMethod ≠ "pix") :
    P0A.payGlyph o = "💳" ∧ P0A.payPhrase o = "*Cartão*" := by
  constructor <;> simp [P0A.payGlyph, P0A.payPhrase, h1, h2]

theorem p0a_deliv_default (o : OrderData) (h1 : o.deliveryMethodCode ≠ some "delivery")
    (h2 : o.deliveryMethodCode ≠ some "pickup") :
    P0A.delivPhrase o = "*Consumo no local*" := by
  simp [P0A.delivPhrase, h1, h2]

/-! ### Claim theorems -/

/-- C6: `lineUnitPrice` applied to a line whose flavor prices are
[500, 700] returns 600 under strategy `average`, 1200 under `sum`, 700
under `max`, and 600 when no strategy is specified (the default behaves
as `average`) — in both cited revisions (`src/src/worker.ts` and
`src/unnamed/part_001`). -/
theorem c6_theorem :
    WTS.calculateItemPrice (flavorItem (some "average")) = 600
    ∧ WTS.calculateItemPrice (flavorItem (some "sum")) = 1200
    ∧ WTS.calculateItemPrice (flavorItem (some "max")) = 700
    ∧ WTS.calculateItemPrice (flavorItem none) = 600
    ∧ P1.calculateItemPrice (flavorItem (some "average")) = 600
    ∧ P1.calculateItemPrice (flavorItem (some "sum")) = 1200
    ∧ P1.calculateItemPrice (flavorItem (some "max")) = 700
    ∧ P1.calculateItemPrice (flavorItem none) = 600 := by
  decide

/-- C9: for every order snapshot, rendering the `OrderStatusUpdated`
event yields the fixed in-production string when `status =
"in_preparation"`, the fixed in-transit string when `status =
"completed"`, and the empty string otherwise — in all four revisions. -/
theorem c9_theorem (o : OrderData) :
    WTS.formatOrderMessage o .ORDER_STATUS_UPDATED = statusUpdatedText o.status
    ∧ P0A.formatOrderMessage o .ORDER_STATUS_UPDATED = statusUpdatedText o.status
    ∧ P0B.formatOrderMessage o .ORDER_STATUS_UPDATED = statusUpdatedText o.status
    ∧ P1.formatOrderMessage o .ORDER_STATUS_UPDATED = statusUpdatedText o.status :=
  ⟨rfl, rfl, rfl, rfl⟩

/-- C10: `lineUnitPrice` is total — the division of the `average`
strategy and the maximum of the `max` strategy sit behind the non-empty
flavor guard (the hazard-tracking variant never returns `none`), and
with no flavors a missing base price defaults to 0. -/
theorem c10_theorem (i : OrderItem) :
    WTS.calculateItemPriceOpt i = some (WTS.calculateItemPrice i)
    ∧ (effFlavors i = [] → WTS.calculateItemPrice i = i.price.getD 0)
    ∧ P1.calculateItemPrice i = WTS.calculateItemPrice i := by
  refine ⟨wts_itemPriceOpt_eq i, ?_, rfl⟩
  intro h
  simp [WTS.calculateItemPrice, h]

/-- C10 witness: on a flavorless line with no price field the price is 0. -/
theorem c10_witness : WTS.calculateItemPrice itemPlain = 0 :=
  (c10_theorem itemPlain).2.1 rfl

/-- C5 counterexample: in the `part_000` revisions a line with flavors
and the unrecognized strategy "promotional" falls back to its base
`price` field — two lines identical except for base price yield 999 and
0, neither being the 600 average the claim requires. -/
theorem c5_counterexample :
    P0A.calculateItemPrice itemOther999 = 999
    ∧ P0A.calculateItemPrice itemOther0 = 0
    ∧ P0B.calculateItemPrice itemOther999 = 999 := by
  decide

/-- C5 (amended): in `src/src/worker.ts` (and `part_001`, which aliases
the same definition) a line with a non-empty flavor list is priced
independently of its base `price` field, and every strategy other than
`sum` and `max` — absent or unrecognized — is priced as the rounded
average of the flavor prices. -/
theorem c5_theorem :
    (∀ (i : OrderItem) (p : Option Int), effFlavors i ≠ [] →
      WTS.calculateItemPrice { i with price := p } = WTS.calculateItemPrice i)
    ∧ (∀ i : OrderItem, effFlavors i ≠ [] → effPricingType i ≠ "sum" →
        effPricingType i ≠ "max" →
        WTS.calculateItemPrice i
          = roundHalfUp ((effFlavors i).map Flavor.price).sum (effFlavors i).length) :=
  ⟨wts_price_indep, wts_default_avg⟩

/-- C5 witness: concrete instance of both conjuncts at the two-flavor
line with the unrecognized strategy "promotional". -/
theorem c5_witness :
    WTS.calculateItemPrice itemOther999 = WTS.calculateItemPrice (flavorItem (some "promotional"))
    ∧ WTS.calculateItemPrice (flavorItem (some "promotional")) = roundHalfUp 1200 2 := by
  constructor
  · exact c5_theorem.1 (flavorItem (some "promotional")) (some 999) (by decide)
  · exact c5_theorem.2 (flavorItem (some "promotional")) (by decide) (by decide) (by decide)

/-- C8: `orderTotal` equals the sum over lines of
`(lineUnitPrice(line) + Σ complement.price × complement.quantity) ×
line.quantity` (for `worker.ts` and for `part_000` with its own line
price), empty complement lists contribute 0, permuting a complement list
never changes its total, and the hazard-tracking variant never fails. -/
theorem c8_theorem (o : OrderData) :
    WTS.calculateOrderTotal o
      = (o.items.map fun i =>
          (WTS.calculateItemPrice i +
            ((effComplements i).map fun c => c.price.getD 0 * c.quantity).sum) * i.quantity).sum
    ∧ P0A.calculateOrderTotal o
      = (o.items.map fun i =>
          (P0A.calculateItemPrice i +
            ((effComplements i).map fun c => c.price.getD 0 * c.quantity).sum) * i.quantity).sum
    ∧ complementsTotal [] = 0
    ∧ (∀ l₁ l₂ : List ComplementEntry, l₁.Perm l₂ → complementsTotal l₁ = complementsTotal l₂)
    ∧ WTS.calculateOrderTotalOpt o = some (WTS.calculateOrderTotal o) :=
  ⟨wts_total_formula o, p0a_total_formula o, rfl, complementsTotal_perm, wts_totalOpt_eq o⟩

/-- C8 witness: a concrete complement swap and a concrete order on which
the hazard-tracking total is defined. -/
theorem c8_witness :
    complementsTotal [compA, compB] = complementsTotal [compB, compA]
    ∧ WTS.calculateOrderTotalOpt flavorCashOrder
        = some (WTS.calculateOrderTotal flavorCashOrder) :=
  ⟨(c8_theorem sampleOrder).2.2.2.1 [compA, compB] [compB, compA] (List.Perm.swap compB compA []),
   (c8_theorem flavorCashOrder).2.2.2.2⟩

/-- C1 counterexample: in the `part_000` second revision and in
`part_001`, a readiness state other than "open" (and not a NotFound)
schedules no delayed re-run at all — the processor immediately throws an
error carrying status 503, which its own classifier marks as temporary,
i.e. retryable. -/
theorem c1_counterexample :
    P0B.processOrderMessage sampleOrder .ORDER_CREATED (.ok connectingData) .ok
      = ⟨.thrown P0B.notReadyErr, false, [],
          P0B.formatOrderMessage sampleOrder .ORDER_CREATED⟩
    ∧ P0B.isTemporaryProviderError P0B.notReadyErr = true
    ∧ P1.processOrderMessage sampleOrder .ORDER_CREATED (.ok connectingData) .ok
      = ⟨.thrown P1.notReadyErr, false, [],
          P1.formatOrderMessage sampleOrder .ORDER_CREATED⟩
    ∧ P1.isTemporaryProviderError P1.notReadyErr = true := by
  refine ⟨rfl, by decide, rfl, by decide⟩

/-- C1 (amended): in the `part_000` first revision, whenever the
readiness check succeeds with a state other than "open" the processor
schedules exactly one delayed re-run with delay `60000 + r·60000 ∈
[60000, 120000)` ms and returns without attempting the send and without
throwing; the `part_000` second revision and `part_001` instead throw a
503-status (retryable) error, and `src/src/worker.ts` performs no
readiness check at all. -/
theorem c1_theorem (o : OrderData) (ty : MsgType) (data : Option GatewayData)
    (send : SendResult) (r : ℚ) (h : P0A.notOpen data = true) (h0 : 0 ≤ r) (h1 : r < 1) :
    P0A.processOrderMessage o ty (.ok data) send r
      = ⟨.delayed (60000 + r * 60000), false, [60000 + r * 60000],
          P0A.formatOrderMessage o ty⟩
    ∧ 60000 ≤ 60000 + r * 60000 ∧ 60000 + r * 60000 < 120000 :=
  ⟨p0a_notReady_delay o ty data send r h, (delay_window r h0 h1).1, (delay_window r h0 h1).2⟩

/-- C1 witness: concrete not-open readiness result with `r = 1/2`. -/
theorem c1_witness :
    P0A.processOrderMessage sampleOrder .ORDER_CREATED (.ok connectingData) .ok (1/2)
      = ⟨.delayed (60000 + (1/2 : ℚ) * 60000), false, [60000 + (1/2 : ℚ) * 60000],
          P0A.formatOrderMessage sampleOrder .ORDER_CREATED⟩
    ∧ 60000 ≤ 60000 + (1/2 : ℚ) * 60000 ∧ 60000 + (1/2 : ℚ) * 60000 < 120000 :=
  c1_theorem sampleOrder .ORDER_CREATED connectingData .ok (1/2)
    (by decide) (by norm_num) (by norm_num)

/-- C2 counterexample: the `worker.ts` classifier has no NotFound class
(a 404 is Terminal there) and no message clause (an error whose only
marker is timeout phrasing is Terminal there), while the `part_000`
classifier marks a bare `FetchError` name Transient although the claim's
Transient condition does not hold of it. -/
theorem c2_counterexample :
    WTS.classify resp404Err = .Terminal
    ∧ WTS.classify msgTimeoutErr = .Terminal
    ∧ claimMsgMatch msgTimeoutErr.message = true
    ∧ P0B.classify fetchNameErr = .Transient
    ∧ ¬ ClaimTransient fetchNameErr := by
  refine ⟨by decide, by decide, by decide, by decide, ?_⟩
  unfold ClaimTransient
  decide

/-- C2 (amended): the `part_000` second-revision classifier returns
NotFound exactly on `response.status = 404`, Transient exactly when the
error is not such a 404 and either satisfies the claim's Transient
condition (status ≥ 500 carried directly or on the response,
connection-reset/timeout code, or timeout/network/temporarily-unavailable
message phrasing) or merely bears the `FetchError` name, and Terminal
otherwise (in particular on a plain 400); the `worker.ts` classifier is
narrower: connection codes (plus `EPIPE`) or `response.status ≥ 500`
only. -/
theorem c2_theorem :
    (∀ e : ErrObj, P0B.classify e = .NotFound ↔ e.responseStatus = some 404)
    ∧ (∀ e : ErrObj, P0B.classify e = .Transient
        ↔ (e.responseStatus ≠ some 404 ∧ (ClaimTransient e ∨ e.name = "FetchError")))
    ∧ (∀ e : ErrObj, P0B.classify e = .Terminal
        ↔ (e.responseStatus ≠ some 404 ∧ ¬ (ClaimTransient e ∨ e.name = "FetchError")))
    ∧ (∀ e : ErrObj, WTS.isTemporaryProviderError e = true
        ↔ (e.code = some "ECONNRESET" ∨ e.code = some "ETIMEDOUT" ∨ e.code = some "EPIPE"
            ∨ statusGE500 e.responseStatus = true))
    ∧ P0B.classify resp503Err = .Transient
    ∧ P0B.classify resp404Err = .NotFound
    ∧ P0B.classify plain400Err = .Terminal := by
  refine ⟨p0b_classify_notFound_iff, p0b_classify_transient_iff,
    p0b_classify_terminal_iff, wts_isTemp_iff, ?_, ?_, ?_⟩ <;> decide

/-- C3 counterexample: a Terminal-classified send failure is also
re-thrown — `worker.ts` throws a fresh permanent-failure error and the
`part_000` second revision re-throws the wrapped error — so the thrown
error reaches the queue's retry counting exactly as a Transient one
does. -/
theorem c3_counterexample :
    WTS.classify plain400Err = .Terminal
    ∧ WTS.processOrderMessage sampleOrder .ORDER_CREATED (.fail plain400Err)
      = ⟨.thrown (WTS.permWrap plain400Err), true, [],
          WTS.formatOrderMessage sampleOrder .ORDER_CREATED⟩
    ∧ P0B.classify (P0B.sendWrap plain400Err) = .Terminal
    ∧ P0B.processOrderMessage sampleOrder .ORDER_CREATED (.ok openData) (.fail plain400Err)
      = ⟨.thrown (P0B.sendWrap plain400Err), true, [],
          P0B.formatOrderMessage sampleOrder .ORDER_CREATED⟩ := by
  refine ⟨by decide, rfl, by decide, rfl⟩

/-- C3 (amended): in the `part_000` first revision, with the gateway
open, a send failure is re-thrown exactly when its wrapped error is
classified temporary, and otherwise surfaced through an explicit
`job.moveToFailed` (a permanent failure outside the retry path); only
that revision distinguishes the two classes — `worker.ts` and the
`part_000` second revision re-throw both. -/
theorem c3_theorem (o : OrderData) (ty : MsgType) (data : Option GatewayData)
    (e : ErrObj) (r : ℚ) (h : P0A.notOpen data = false) :
    (P0A.isTemporaryProviderError (P0A.sendWrap e) = true →
      P0A.processOrderMessage o ty (.ok data) (.fail e) r
        = ⟨.thrown (P0A.sendWrap e), true, [], P0A.formatOrderMessage o ty⟩)
    ∧ (P0A.isTemporaryProviderError (P0A.sendWrap e) = false →
      P0A.processOrderMessage o ty (.ok data) (.fail e) r
        = ⟨.movedFailed (P0A.sendWrap e), true, [], P0A.formatOrderMessage o ty⟩) := by
  constructor <;> intro ht <;> rw [p0a_send_fail o ty data e r h] <;> simp [ht]

/-- C3 witness: a connection-reset send failure with the gateway open is
re-thrown by the first revision. -/
theorem c3_witness :
    P0A.processOrderMessage sampleOrder .ORDER_CREATED (.ok openData) (.fail resetErr) 0
      = ⟨.thrown (P0A.sendWrap resetErr), true, [],
          P0A.formatOrderMessage sampleOrder .ORDER_CREATED⟩ :=
  (c3_theorem sampleOrder .ORDER_CREATED openData resetErr 0 (by decide)).1 (by decide)

/-- C4 counterexample: `part_001` throws on a readiness 404 instead of
logging and ending the attempt, and the `part_000` second revision
re-throws a send 404 because its guard inspects `err.response?.status`
while its `sendMessage` wrapper stores the status in `err.status`. -/
theorem c4_counterexample :
    P1.processOrderMessage sampleOrder .ORDER_CREATED (.fail resp404Err) .ok
      = ⟨.thrown P1.notFoundErr, false, [],
          P1.formatOrderMessage sampleOrder .ORDER_CREATED⟩
    ∧ P0B.processOrderMessage sampleOrder .ORDER_CREATED (.ok openData) (.fail resp404Err)
      = ⟨.thrown (P0B.sendWrap resp404Err), true, [],
          P0B.formatOrderMessage sampleOrder .ORDER_CREATED⟩ :=
  ⟨rfl, rfl⟩

/-- C4 (amended): only the readiness-check 404 of the `part_000` second
revision is logged and swallowed — the processor returns without
dispatching, without scheduling, and without throwing; that revision's
send-path 404 is re-thrown (mismatched guard), and `part_001` throws on
404 in both paths. -/
theorem c4_theorem (o : OrderData) (ty : MsgType) (send : SendResult) (e : ErrObj)
    (h : e.responseStatus = some 404) :
    P0B.processOrderMessage o ty (.fail e) send
      = ⟨.returned, false, [], P0B.formatOrderMessage o ty⟩ :=
  p0b_readiness404 o ty send e h

/-- C4 witness: concrete readiness 404 on the second revision. -/
theorem c4_witness :
    P0B.processOrderMessage sampleOrder .ORDER_CREATED (.fail resp404Err) .ok
      = ⟨.returned, false, [], P0B.formatOrderMessage sampleOrder .ORDER_CREATED⟩ :=
  c4_theorem sampleOrder .ORDER_CREATED .ok resp404Err rfl

/-- C7 counterexample: on a concrete two-flavor cash order the
`worker.ts` renderer emits no flavors block, no payment-method line and
no delivery-method line, while the `part_000` renderer emits all of
them. -/
theorem c7_counterexample :
    strContains (WTS.formatOrderMessage flavorCashOrder .ORDER_CREATED) "_Sabores_" = false
    ∧ strContains (WTS.formatOrderMessage flavorCashOrder .ORDER_CREATED) "💵" = false
    ∧ strContains (WTS.formatOrderMessage flavorCashOrder .ORDER_CREATED) "🛵" = false
    ∧ strContains (P0A.formatOrderMessage flavorCashOrder .ORDER_CREATED) "_Sabores_" = true
    ∧ strContains (P0A.formatOrderMessage flavorCashOrder .ORDER_CREATED) "💵" = true
    ∧ strContains (P0A.formatOrderMessage flavorCashOrder .ORDER_CREATED) "🛵" = true := by
  decide

/-- C7 (amended): the `part_000` renderer satisfies the claim for
`OrderCreated`: the message opens with the order-code header; every
line's block occurs in it; within a block the quantity tag is omitted at
quantity 1 and present beyond 1, an empty effective flavor list
suppresses the flavors block entirely while a non-empty one emits the
`_Sabores_` header and one `1/N`-tagged line per flavor, an empty
complement list suppresses its block, and absent notes render nothing;
an unknown payment method falls back to the card glyph and phrasing, an
unknown or absent delivery code to dine-in; and the message ends with
the payment line, delivery line, localized-currency total and thank-you
line.  The `worker.ts` renderer (also cited by the claim) omits the
flavor/complement blocks and the payment and delivery lines, and
`part_001` omits the payment and delivery lines. -/
theorem c7_theorem (o : OrderData) :
    (∃ rest, P0A.formatOrderMessage o .ORDER_CREATED
        = ("Pedido *n° " ++ (toString o.code ++ "*\n\n*Itens:*\n")) ++ rest)
    ∧ (∀ i ∈ o.items, StrIn (P0A.itemBlock i) (P0A.formatOrderMessage o .ORDER_CREATED))
    ∧ (∀ i : OrderItem,
        (i.quantity ≤ 1 →
          ∃ rest, P0A.itemBlock i = "📦 ```" ++ (i.name ++ ("```" ++ rest)))
        ∧ (1 < i.quantity →
          ∃ rest, P0A.itemBlock i
            = "📦 ```" ++ (toString i.quantity ++ ("x " ++ (i.name ++ ("```" ++ rest)))))
        ∧ (effFlavors i = [] → P0A.flavorsBlock i = "")
        ∧ (effFlavors i ≠ [] → StrIn "\n     _Sabores_" (P0A.itemBlock i))
        ∧ (∀ f ∈ effFlavors i,
            StrIn ("\n           ```" ++
                ("1/" ++ (toString (effFlavors i).length ++ (" " ++ (f.name ++ "```")))))
              (P0A.itemBlock i))
        ∧ (i.orderItemComplements.getD [] = [] → P0A.complementsBlock i = "")
        ∧ (i.notes = none → P0A.notesBlock i = ""))
    ∧ (o.paymentMethod ≠ "cash" → o.paymentMethod ≠ "pix" →
        P0A.payGlyph o = "💳" ∧ P0A.payPhrase o = "*Cartão*")
    ∧ (o.deliveryMethodCode ≠ some "delivery" → o.deliveryMethodCode ≠ some "pickup" →
        P0A.delivPhrase o = "*Consumo no local*")
    ∧ StrSuffix
        ("\n" ++ (P0A.payGlyph o ++ (" " ++ (P0A.payPhrase o ++
          ("\n🛵 " ++ (P0A.delivPhrase o ++
            ("\n\nTotal *" ++ (formatBRL (P0A.calculateOrderTotal o) ++
              "*\n\nObrigado pela preferência, se precisar de algo é só chamar! 😉"))))))))
        (P0A.formatOrderMessage o .ORDER_CREATED) := by
  refine ⟨⟨_, p0a_msg_decomp o⟩, fun i hi => p0a_items_in o i hi, fun i =>
    ⟨fun h => ⟨_, p0a_itemBlock_q1 i h⟩, fun h => ⟨_, p0a_itemBlock_qn i h⟩,
      p0a_flavorsBlock_nil i, p0a_sabores_in i, fun f hf => p0a_flavorLine_in i f hf,
      p0a_complementsBlock_empty i, p0a_notesBlock_none i⟩,
    p0a_pay_default o, p0a_deliv_default o, p0a_tail_suffix o⟩

/-- C7 witness: concrete instances — unknown payment and delivery codes
fall back to card and dine-in, and a two-flavor line carries the
`_Sabores_` header. -/
theorem c7_witness :
    P0A.payPhrase cardOrder = "*Cartão*"
    ∧ P0A.delivPhrase cardOrder = "*Consumo no local*"
    ∧ StrIn "\n     _Sabores_" (P0A.itemBlock (flavorItem (some "average"))) := by
  refine ⟨((c7_theorem cardOrder).2.2.2.1 (by decide) (by decide)).2,
    (c7_theorem cardOrder).2.2.2.2.1 (by decide) (by decide), ?_⟩
  exact ((c7_theorem cardOrder).2.2.1 (flavorItem (some "average"))).2.2.2.1 (by decide)
